import Mathlib

/-!
A shallow embedding of the order store implemented in
`src/aakso-tauri-app/src-tauri/src/main.rs` (Tauri + rusqlite + SQLite),
together with proofs about its repository operations
(`save_order_to_db`, `delete_order`, `load_orders_paginated_from_db`,
`load_orders`) and its schema initialisation / migration
(`init_database`).

Modelling conventions:
* SQLite tables are modelled as Lean lists of row structures; a statement
  executed against the connection becomes a pure function on that state.
* `TEXT` columns are `String`; the SQLite `BINARY` collation used by
  `ORDER BY` on `TEXT` compares UTF-8 bytes, which coincides with the
  codepoint-lexicographic `String` order of Lean (UTF-8 is order
  preserving), so `≤` on `String` is a faithful model of the comparison.
* `u32` values are `Nat`s assumed `< 2^32`; where the source performs
  `u32` arithmetic whose wrap-around matters (the pagination offset
  `(page - 1) * page_size`, computed in release mode with wrapping
  two's-complement semantics) the model reduces modulo `2^32` explicitly.
* `f64` columns (`qty`, `rate`, `amount`, `subtotal`, `gst`, `total`) are
  only ever bound on INSERT and read back verbatim by this code — SQLite
  `REAL` stores the exact 8-byte IEEE value again, and the repository does
  no floating-point arithmetic on them — so they are modelled by an exact
  numeric type (`Rat`) with decidable equality.
* Fallible statements: every `conn.execute(...)?` can return
  `SqlResult::Err` (I/O error, constraint violation, …) which `?`
  propagates.  For the migration-atomicity analysis this is modelled by a
  runner with an injected failing step; on the success path the step
  functions compose directly.
-/

namespace Aakso

/-- One line item (struct `OrderItem` in main.rs).  `sl_no` is `u32` in the
source but is only ever stored, read back and compared as a sort key —
never used in arithmetic — so plain `Nat` is a faithful model. -/
structure OrderItem where
  sl_no : Nat
  item_type : String
  qty : Rat
  length : String
  dia : String
  shore : String
  remarks : String
  rate : Rat
  amount : Rat
deriving DecidableEq

/-- The domain aggregate (struct `Order` in main.rs), an order with its
nested item list. -/
structure Order where
  order_no : String
  date : String
  customer_name : String
  contact_person : String
  phone : String
  status : String
  machine_name : String
  items : List OrderItem
  subtotal : Rat
  gst : Rat
  total : Rat
  remarks : String
  delivery_note : String
  delivery_note_date : String
  buyer_order_no : String
  buyer_order_date : String
  created_date : String
deriving DecidableEq

/-- A row of the `orders` table: the sixteen columns that
`save_order_to_db` binds (lines 287–308 of main.rs) and
`load_orders_paginated_from_db` selects back.  Every column is bound from
a non-null Rust value on insert, so rows written by this repository are
total; the `unwrap_or_default()` the row codec applies to nullable TEXT
columns (main.rs lines 226–238) only fires on legacy NULLs, which the
operational claims below never create. -/
structure OrderRow where
  order_no : String
  date : String
  customer_name : String
  contact_person : String
  phone : String
  status : String
  machine_name : String
  subtotal : Rat
  gst : Rat
  total : Rat
  remarks : String
  delivery_note : String
  delivery_note_date : String
  buyer_order_no : String
  buyer_order_date : String
  created_date : String
deriving DecidableEq

/-- A row of the `order_items` table as the repository reads and writes
it: the `order_no` foreign-key column plus the nine item columns bound at
main.rs lines 320–335.  The `id INTEGER PRIMARY KEY AUTOINCREMENT` column
is never bound on insert and never selected by any repository read, so it
is omitted here; it reappears in the schema-level model below, whose
migration copies it explicitly. -/
structure ItemRow where
  order_no : String
  item : OrderItem
deriving DecidableEq

/-- The database state seen by the repository operations: the contents of
the two tables `orders` and `order_items`. -/
structure Store where
  orders : List OrderRow
  items : List ItemRow
deriving DecidableEq

/-- Projection of an `Order` to its `orders`-table row: exactly the
sixteen `?n` bindings of the `INSERT OR REPLACE` at main.rs 287–308. -/
def orderToRow (o : Order) : OrderRow :=
  { order_no := o.order_no
    date := o.date
    customer_name := o.customer_name
    contact_person := o.contact_person
    phone := o.phone
    status := o.status
    machine_name := o.machine_name
    subtotal := o.subtotal
    gst := o.gst
    total := o.total
    remarks := o.remarks
    delivery_note := o.delivery_note
    delivery_note_date := o.delivery_note_date
    buyer_order_no := o.buyer_order_no
    buyer_order_date := o.buyer_order_date
    created_date := o.created_date }

/-- `save_order_to_db` (main.rs 280–343): inside one transaction,
`INSERT OR REPLACE INTO orders` (replace = delete the conflicting
primary-key row, insert the new one), then
`DELETE FROM order_items WHERE order_no = ?1`, then one
`INSERT INTO order_items` per element of `order.items`, in list order. -/
def save_order_to_db (o : Order) (s : Store) : Store :=
  { orders := s.orders.filter (fun r => r.order_no != o.order_no) ++ [orderToRow o]
    items := s.items.filter (fun r => r.order_no != o.order_no)
      ++ o.items.map (fun it => { order_no := o.order_no, item := it }) }

/-- `delete_order` (main.rs 403–415): `DELETE FROM orders WHERE
order_no = ?1`.  Both generations of the item table declare
`FOREIGN KEY (order_no) REFERENCES orders(order_no) ON DELETE CASCADE`
(main.rs 144, 177), and this desktop app links SQLite through rusqlite's
bundled build, which compiles with `SQLITE_DEFAULT_FOREIGN_KEYS=1`:
foreign-key enforcement is ON by default on every connection, so — as
the source comment at main.rs 407 says — the delete cascades to the
`order_items` rows of the deleted order. -/
def delete_order (order_no : String) (s : Store) : Store :=
  { orders := s.orders.filter (fun r => r.order_no != order_no)
    items := s.items.filter (fun r => r.order_no != order_no) }

/-- The comparison `ORDER BY created_date DESC` applies between two
`orders` rows.  SQLite's default BINARY collation compares the UTF-8
bytes of the two TEXT values (memcmp, shorter-is-smaller on a tie), which
is exactly the lexicographic order on the codepoint sequences, i.e. on
`String.data`. -/
def createdDescRow (a b : OrderRow) : Prop :=
  b.created_date.data ≤ a.created_date.data

instance : DecidableRel createdDescRow := fun a b =>
  inferInstanceAs (Decidable (b.created_date.data ≤ a.created_date.data))

instance : IsTotal OrderRow createdDescRow :=
  ⟨fun a b => (le_total b.created_date.data a.created_date.data)⟩

instance : IsTrans OrderRow createdDescRow :=
  ⟨fun _ _ _ h1 h2 => le_trans h2 h1⟩

/-- The comparison `ORDER BY sl_no` applies between two `order_items`
rows of the same order. -/
def slNoAscRow (a b : ItemRow) : Prop := a.item.sl_no ≤ b.item.sl_no

instance : DecidableRel slNoAscRow := fun a b =>
  inferInstanceAs (Decidable (a.item.sl_no ≤ b.item.sl_no))

instance : IsTotal ItemRow slNoAscRow :=
  ⟨fun a b => le_total a.item.sl_no b.item.sl_no⟩

instance : IsTrans ItemRow slNoAscRow := ⟨fun _ _ _ h1 h2 => le_trans h1 h2⟩

/-- `SELECT ... FROM orders ORDER BY created_date DESC`: some ordering of
the table rows that is sorted by `created_date` descending (SQLite leaves
the order of ties unspecified; a stable sort is one valid refinement). -/
def sortRows (l : List OrderRow) : List OrderRow :=
  List.insertionSort createdDescRow l

/-- The per-order item query of the read loop (main.rs 249–266):
`SELECT ... FROM order_items WHERE order_no = ? ORDER BY sl_no`, with the
row codec mapping each row back to an `OrderItem`. -/
def loadItemsFor (s : Store) (order_no : String) : List OrderItem :=
  (List.insertionSort slNoAscRow
      (s.items.filter (fun r => r.order_no == order_no))).map (fun r => r.item)

/-- The row codec of the read loop (main.rs 222–240 plus the item
attachment at 269–274): rebuild the `Order` from its row and attach the
items loaded for its `order_no`. -/
def rowToOrder (s : Store) (r : OrderRow) : Order :=
  { order_no := r.order_no
    date := r.date
    customer_name := r.customer_name
    contact_person := r.contact_person
    phone := r.phone
    status := r.status
    machine_name := r.machine_name
    items := loadItemsFor s r.order_no
    subtotal := r.subtotal
    gst := r.gst
    total := r.total
    remarks := r.remarks
    delivery_note := r.delivery_note
    delivery_note_date := r.delivery_note_date
    buyer_order_no := r.buyer_order_no
    buyer_order_date := r.buyer_order_date
    created_date := r.created_date }

/-- `2^32`, the modulus of Rust `u32` arithmetic. -/
def U32MOD : Nat := 4294967296

/-- Rust `p - 1` at type `u32` (release mode): wraps to `2^32 - 1` when
`p = 0`.  `p` is assumed `< 2^32` (it is a `u32` value). -/
def sub1u32 (p : Nat) : Nat := (p + (U32MOD - 1)) % U32MOD

/-- The offset computation `(p - 1) * ps` of main.rs line 209, performed
in `u32` arithmetic (wrapping in release builds). -/
def pageOffset (p ps : Nat) : Nat := (sub1u32 p * ps) % U32MOD

/-- `load_orders_paginated_from_db` (main.rs 205–278).  When both `page`
and `page_size` are given the query is
`... ORDER BY created_date DESC LIMIT ps OFFSET (p-1)*ps`; otherwise the
unlimited `... ORDER BY created_date DESC`.  Each returned row is decoded
and its items attached. -/
def load_orders_paginated_from_db (page page_size : Option Nat) (s : Store) :
    List Order :=
  let sorted := sortRows s.orders
  let sel : List OrderRow :=
    match page, page_size with
    | some p, some ps => (sorted.drop (pageOffset p ps)).take ps
    | _, _ => sorted
  sel.map (rowToOrder s)

/-- `load_orders_from_db` (main.rs 201–203), the unpaginated read used by
`export_orders`. -/
def load_orders_from_db (s : Store) : List Order :=
  load_orders_paginated_from_db none none s

/-- `get_total_orders_count` (main.rs 345–353): `SELECT COUNT(*) FROM
orders`. -/
def get_total_orders_count (s : Store) : Nat := s.orders.length

/-- The response struct of the public `load_orders` command. -/
structure PaginatedOrders where
  orders : List Order
  total : Nat
  page : Nat
  page_size : Nat
  total_pages : Nat
deriving DecidableEq

/-- The `total_pages` computation of main.rs line 372:
`(total as f64 / page_size as f64).ceil() as u32`.  For `u32` inputs with
`ps ≥ 1` this equals exact ceiling division `(total + ps - 1) / ps`:
every `u32` is an exact `f64`, and the rounding of the quotient cannot
cross an integer (a nonzero remainder `r` gives a fractional part
`r / ps ≥ 1 / ps`; if `ps > 2^21` the quotient is below `2^10`, where a
half-ulp is `2^-44 < 1 / ps` is impossible since `ps < 2^32 < 2^42`, and
if `ps ≤ 2^21` a half-ulp at magnitude `< 2^32` is at most `2^-21 ≤ 1/ps`
with equality only in the exactly-representable boundary case).  For
`ps = 0` the `f64` division yields `+inf` (when `total > 0`) or NaN (when
`total = 0`), and Rust's saturating `as u32` cast maps `+inf` to
`u32::MAX = 2^32 - 1` and NaN to `0`. -/
def totalPagesCalc (total ps : Nat) : Nat :=
  if ps = 0 then (if total = 0 then 0 else U32MOD - 1)
  else (total + ps - 1) / ps

/-- The public `load_orders` command (main.rs 366–381): omitted
parameters default to `page = 1`, `page_size = 50`, and the read is
always performed through the paginated query with both parameters
present. -/
def load_orders (page page_size : Option Nat) (s : Store) : PaginatedOrders :=
  let p := page.getD 1
  let ps := page_size.getD 50
  let orders := load_orders_paginated_from_db (some p) (some ps) s
  let total := get_total_orders_count s
  { orders := orders
    total := total
    page := p
    page_size := ps
    total_pages := totalPagesCalc total ps }

/-- `update_order_status` (main.rs 390–401):
`UPDATE orders SET status = ?1 WHERE order_no = ?2`. -/
def update_order_status (order_no status : String) (s : Store) : Store :=
  { s with orders := s.orders.map (fun r =>
      if r.order_no = order_no then { r with status := status } else r) }

/-!
### Schema-level model: `init_database` (main.rs 69–195)

The operational model above works on the fixed current-generation
schema; the definitions below model the schema itself so that the
initialisation/migration behaviour can be analysed.
-/

/-- A full `order_items` row at the schema level: the eleven
current-generation columns — including `id INTEGER PRIMARY KEY
AUTOINCREMENT`, which the migration copies by name — plus the cell of
the legacy `machine` column.  The `machine` field is meaningful only
when the enclosing table actually carries the column
(`ItemsTable.hasMachine`); by convention it is `""` otherwise and for
SQL NULL. -/
structure MigRow where
  id : Nat
  order_no : String
  sl_no : Nat
  item_type : String
  qty : Rat
  length : String
  dia : String
  shore : String
  remarks : String
  rate : Rat
  amount : Rat
  machine : String
deriving DecidableEq

/-- An `order_items`-shaped table: whether it still carries the legacy
`machine` column, and its rows. -/
structure ItemsTable where
  hasMachine : Bool
  rows : List MigRow
deriving DecidableEq

/-- The schema-level database state `init_database` acts on: whether and
with which column list the `orders` table exists, the `order_items`
table (`none` = absent), a possibly left-over `order_items_new` shadow
table (only a crashed migration leaves one behind), and the two
indexes. -/
structure DbSchema where
  ordersExists : Bool
  ordersCols : List String
  items : Option ItemsTable
  itemsNew : Option ItemsTable
  idxStatus : Bool
  idxDate : Bool
deriving DecidableEq

/-- The sixteen columns of `CREATE TABLE IF NOT EXISTS orders`
(main.rs 74–94). -/
def currentOrdersCols : List String :=
  ["order_no", "date", "customer_name", "contact_person", "phone",
   "status", "machine_name", "subtotal", "gst", "total", "remarks",
   "delivery_note", "delivery_note_date", "buyer_order_no",
   "buyer_order_date", "created_date"]

/-- `let _ = conn.execute("ALTER TABLE orders ADD COLUMN c", [])`
(main.rs 97–101): adding an already-present column makes the statement
fail and the failure is discarded, leaving the table unchanged;
otherwise the column is appended at the end. -/
def addColumn (cols : List String) (c : String) : List String :=
  if c ∈ cols then cols else cols ++ [c]

/-- The five order-level columns the additive migration re-adds on every
start, in statement order (main.rs 97–101). -/
def addedCols : List String :=
  ["machine_name", "delivery_note", "delivery_note_date",
   "buyer_order_no", "buyer_order_date"]

/-- Statement 1 of the legacy-item migration (main.rs 131–147):
`CREATE TABLE IF NOT EXISTS order_items_new (...)`.  The new shape has no
`machine` column; the statement is a no-op when a shadow table already
exists. -/
def migStepCreate (s : DbSchema) : DbSchema :=
  match s.itemsNew with
  | some _ => s
  | none => { s with itemsNew := some { hasMachine := false, rows := [] } }

/-- The effect, on one row, of copying by the explicit eleven-column list
that excludes `machine`: every current-generation column is transferred
verbatim and the target's `machine` cell (if the target table even has
that column) is left NULL = `""`. -/
def clearMachine (r : MigRow) : MigRow := { r with machine := "" }

/-- Statement 2 (main.rs 150–154): `INSERT INTO order_items_new (id,
order_no, sl_no, item_type, qty, length, dia, shore, remarks, rate,
amount) SELECT id, order_no, sl_no, item_type, qty, length, dia, shore,
remarks, rate, amount FROM order_items`. -/
def migStepCopy (s : DbSchema) : DbSchema :=
  match s.items, s.itemsNew with
  | some t, some n =>
      let merged : ItemsTable :=
        { n with rows := n.rows ++ t.rows.map clearMachine }
      { s with itemsNew := some merged }
  | _, _ => s

/-- Statement 3 (main.rs 157): `DROP TABLE order_items`. -/
def migStepDrop (s : DbSchema) : DbSchema := { s with items := none }

/-- Statement 4 (main.rs 160):
`ALTER TABLE order_items_new RENAME TO order_items`. -/
def migStepRename (s : DbSchema) : DbSchema :=
  { s with items := s.itemsNew, itemsNew := none }

/-- The four migration statements in sequence.  The source executes them
as four separate autocommit `conn.execute(...)?` calls with NO enclosing
transaction (main.rs 129–161), so when statement `k` fails
(`SqlResult::Err`, propagated by `?`) the effects of statements `1..k-1`
are already committed and durable.  `failAt = some k` injects a failure
into the `k`-th statement (the failing statement itself has no effect —
an individual SQLite statement is atomic); the Bool is `true` on
success. -/
def migrationRun (failAt : Option Nat) (s : DbSchema) : DbSchema × Bool :=
  if failAt = some 1 then (s, false) else
  let sa := migStepCreate s
  if failAt = some 2 then (sa, false) else
  let sb := migStepCopy sa
  if failAt = some 3 then (sb, false) else
  let sc := migStepDrop sb
  if failAt = some 4 then (sc, false) else
  (migStepRename sc, true)

/-- `init_database` (main.rs 69–195), success path: create `orders` if
absent; additively re-add the five newer order columns with failures
swallowed; check whether `order_items` exists (via `sqlite_master`) and
whether it carries the legacy `machine` column (via
`PRAGMA table_info(order_items)`); run the shadow-table migration
exactly when the legacy column is present; create `order_items` when the
table is absent; finally create the two indexes
(`idx_order_status`, `idx_order_date`) if not present. -/
def init_database (s : DbSchema) : DbSchema :=
  let s1 :=
    if s.ordersExists then s
    else { s with ordersExists := true, ordersCols := currentOrdersCols }
  let s2 := { s1 with ordersCols := addedCols.foldl addColumn s1.ordersCols }
  let s3 :=
    match s2.items with
    | some t => if t.hasMachine then (migrationRun none s2).1 else s2
    | none => { s2 with items := some { hasMachine := false, rows := [] } }
  { s3 with idxStatus := true, idxDate := true }

/-!
### Helper lemmas
-/

/-- Rows surviving a `DELETE ... WHERE key = x` have key `≠ x`, so
selecting `WHERE key = x` afterwards finds nothing. -/
theorem filter_key_ne_then_eq {α : Type} (k : α → String) (x : String)
    (l : List α) :
    (l.filter (fun r => k r != x)).filter (fun r => k r == x) = [] := by
  induction l with
  | nil => rfl
  | cons a t ih =>
    by_cases h : k a = x
    · simp [List.filter_cons, h, ih]
    · simp [List.filter_cons, h, ih]

/-- Selecting `WHERE key = x` on rows that all have key `x` returns all
of them. -/
theorem filter_key_eq_of_all {α : Type} (k : α → String) (x : String)
    (l : List α) (h : ∀ a ∈ l, k a = x) :
    l.filter (fun r => k r == x) = l :=
  List.filter_eq_self.mpr (by intro a ha; simpa using h a ha)

/-- After `save_order_to_db o`, the `order_items` rows of `o.order_no`
are exactly the rows inserted from `o.items`, in insertion order. -/
theorem saved_items_filter (o : Order) (s : Store) :
    (save_order_to_db o s).items.filter (fun r => r.order_no == o.order_no)
      = o.items.map (fun it => { order_no := o.order_no, item := it }) := by
  simp only [save_order_to_db, List.filter_append,
    filter_key_ne_then_eq (fun r : ItemRow => r.order_no) o.order_no,
    List.nil_append]
  exact filter_key_eq_of_all (fun r : ItemRow => r.order_no) o.order_no _
    (by intro a ha
        obtain ⟨it, _, rfl⟩ := List.mem_map.mp ha
        rfl)

/-!
### Concrete fixtures used by the counterexample/evaluation theorems
-/

/-- A sample line item. -/
def itemA : OrderItem :=
  { sl_no := 1, item_type := "seal", qty := 2, length := "10", dia := "5",
    shore := "60", remarks := "", rate := 3, amount := 6 }

/-- A second sample line item. -/
def itemB : OrderItem :=
  { sl_no := 1, item_type := "ring", qty := 1, length := "4", dia := "2",
    shore := "70", remarks := "", rate := 5, amount := 5 }

/-- The `orders` row of order "A". -/
def rowA : OrderRow :=
  { order_no := "A", date := "2024-01-01", customer_name := "Acme",
    contact_person := "", phone := "", status := "pending",
    machine_name := "", subtotal := 6, gst := 1, total := 7, remarks := "",
    delivery_note := "", delivery_note_date := "", buyer_order_no := "",
    buyer_order_date := "", created_date := "2024-01-01" }

/-- The `orders` row of order "B". -/
def rowB : OrderRow :=
  { rowA with order_no := "B", created_date := "2024-01-02" }

/-- A store holding orders "A" and "B" with one item each. -/
def storeAB : Store :=
  { orders := [rowA, rowB]
    items := [{ order_no := "A", item := itemA },
              { order_no := "B", item := itemB }] }

/-- Claim C1: for every stored order, `delete_order` removes the order
row and all `order_items` rows whose `order_no` equals the deleted one
(the cascade the bundled SQLite build enforces), while orders with a
different `orderNo` and their items are left unchanged — the result
tables are exactly the input tables with the rows of that `orderNo`
filtered out, no row of the deleted order survives, and a store with no
orphaned items has none after any `delete_order`. -/
theorem c1_cascade_delete (x : String) (s : Store) :
    (delete_order x s).orders = s.orders.filter (fun r => r.order_no != x)
    ∧ (delete_order x s).items = s.items.filter (fun r => r.order_no != x)
    ∧ (delete_order x s).orders.filter (fun r => r.order_no == x) = []
    ∧ (delete_order x s).items.filter (fun r => r.order_no == x) = []
    ∧ ((∀ r ∈ s.items, ∃ q ∈ s.orders, q.order_no = r.order_no) →
        ∀ r ∈ (delete_order x s).items,
          ∃ q ∈ (delete_order x s).orders, q.order_no = r.order_no) := by
  refine ⟨rfl, rfl,
    filter_key_ne_then_eq (fun r : OrderRow => r.order_no) x _,
    filter_key_ne_then_eq (fun r : ItemRow => r.order_no) x _, ?_⟩
  intro h r hr
  obtain ⟨hr1, hr2⟩ := List.mem_filter.mp hr
  obtain ⟨q, hq, hqe⟩ := h r hr1
  refine ⟨q, List.mem_filter.mpr ⟨hq, ?_⟩, hqe⟩
  rw [hqe]
  exact hr2

/-- Witness for C1 on the concrete two-order store: after deleting
order "A", no row of "A" remains in either table, order "B" and its item
are untouched, and no item is orphaned. -/
theorem c1_cascade_delete_witness :
    ((delete_order "A" storeAB).items.filter (fun r => r.order_no == "A")
        = []
      ∧ (delete_order "A" storeAB).orders = [rowB]
      ∧ (delete_order "A" storeAB).items
          = [{ order_no := "B", item := itemB }])
    ∧ ∀ r ∈ (delete_order "A" storeAB).items,
        ∃ q ∈ (delete_order "A" storeAB).orders, q.order_no = r.order_no :=
  ⟨⟨(c1_cascade_delete "A" storeAB).2.2.2.1, by decide, by decide⟩,
   (c1_cascade_delete "A" storeAB).2.2.2.2 (by decide)⟩

/-- Claim C2: saving an order with item list `L1` and then saving the
same `orderNo` with item list `L2` leaves exactly the `order_items` rows
of `L2` for that order — no residual rows from `L1` — and saving with an
empty item list empties the order's items (whole-aggregate replace).
This holds: `save_order_to_db` always deletes every existing row of the
`orderNo` before re-inserting the provided list. -/
theorem c2_whole_aggregate_replace (o : Order) (L1 L2 : List OrderItem)
    (s : Store) :
    ((save_order_to_db { o with items := L2 }
        (save_order_to_db { o with items := L1 } s)).items.filter
          (fun r => r.order_no == o.order_no))
      = L2.map (fun it => { order_no := o.order_no, item := it })
    ∧ ((save_order_to_db { o with items := [] } s).items.filter
          (fun r => r.order_no == o.order_no)) = [] := by
  constructor
  · exact saved_items_filter { o with items := L2 } _
  · have h := saved_items_filter { o with items := [] } s
    simpa using h

/-- A legacy `order_items` row carrying a `machine` value. -/
def legacyMigRow : MigRow :=
  { id := 1, order_no := "A", sl_no := 1, item_type := "seal", qty := 2,
    length := "10", dia := "5", shore := "60", remarks := "", rate := 3,
    amount := 6, machine := "M1" }

/-- A database in the legacy generation: `order_items` still carries the
`machine` column and holds one row; no shadow table is present. -/
def legacySchema : DbSchema :=
  { ordersExists := true, ordersCols := currentOrdersCols,
    items := some { hasMachine := true, rows := [legacyMigRow] },
    itemsNew := none, idxStatus := true, idxDate := true }

/-- Claim C3: the four-step legacy-item migration is claimed to be
wrapped in a single transaction, so that a failing step leaves the old
`order_items` table untouched and no half-migrated state observable.
The code violates this: the four statements are separate autocommit
`conn.execute(...)?` calls with no transaction (main.rs 129–161).
Evaluating the model at the failing input — a legacy store with one item
row where statement 4 (the `ALTER TABLE ... RENAME`) fails after the
`DROP TABLE order_items` of statement 3 succeeded — shows the run
erroring out while the database is left with NO `order_items` table at
all and a stray half-migrated `order_items_new`, instead of the old
table remaining untouched. -/
theorem c3_migration_not_atomic :
    (migrationRun (some 4) legacySchema).2 = false
    ∧ (migrationRun (some 4) legacySchema).1.items = none
    ∧ (migrationRun (some 4) legacySchema).1.itemsNew
        = some { hasMachine := false, rows := [clearMachine legacyMigRow] }
    ∧ (migrationRun (some 4) legacySchema).1 ≠ legacySchema := by
  decide

/-- An `orders` row whose order number is derived from `i` (all rows
share one creation date; the descending sort is then a permutation and
the counting claims below do not depend on tie order). -/
def mkRow (i : Nat) : OrderRow :=
  { rowA with order_no := toString i }

/-- A store holding 51 orders and no items. -/
def store51 : Store :=
  { orders := (List.range 51).map mkRow, items := [] }

/-- A store holding 125 orders and no items (the spec's pagination
example). -/
def store125 : Store :=
  { orders := (List.range 125).map mkRow, items := [] }

/-- A store holding a single order. -/
def storeOne : Store := { orders := [rowA], items := [] }

/-- Claim C4, counterexample: the public `load_orders` command with both
pagination parameters omitted is claimed to return EVERY order.  It does
not: omitted parameters default to `page = 1`, `page_size = 50`
(main.rs 368–369), so on a store of 51 orders only 50 are returned. -/
theorem c4_counterexample :
    store51.orders.length = 51
    ∧ (load_orders none none store51).orders.length = 50 := by
  decide

/-- Claim C4 (amended): when both pagination parameters are omitted, the
public `load_orders` behaves exactly as `page = 1`, `page_size = 50`: it
returns the first 50 orders of the `createdDate`-descending ordering
(with items attached), not the whole store. -/
theorem c4_amended_default_page (s : Store) :
    load_orders none none s = load_orders (some 1) (some 50) s
    ∧ (load_orders none none s).orders
        = ((sortRows s.orders).take 50).map (rowToOrder s)
    ∧ (load_orders none none s).page = 1
    ∧ (load_orders none none s).page_size = 50 := by
  have h0 : pageOffset 1 50 = 0 := by decide
  refine ⟨rfl, ?_, rfl, rfl⟩
  simp [load_orders, load_orders_paginated_from_db, h0]

/-- Claim C5, counterexample: the paginated read is claimed, for EVERY
`page ≥ 1` and `pageSize ≥ 1`, to return exactly the rows at positions
`[(page-1)*pageSize, page*pageSize)` of the `createdDate`-descending
ordering.  The offset `(p - 1) * ps` is computed in `u32` arithmetic
(main.rs 209), which wraps: at `page = 2^31 + 1`, `pageSize = 4` the
mathematical offset is `2^33` (an empty slice on a one-order store), but
the `u32` computation yields `2^33 mod 2^32 = 0` and the order is
returned. -/
theorem c5_counterexample :
    ¬ ((load_orders (some 2147483649) (some 4) storeOne).orders
        = (((sortRows storeOne.orders).drop ((2147483649 - 1) * 4)).take 4).map
            (rowToOrder storeOne)) := by
  decide

/-- Claim C5 (amended): for every store and every `page ≥ 1`,
`pageSize ≥ 1` in the `u32` domain such that the offset computation
`(page-1)*pageSize` does not overflow `u32`, the public `load_orders`
returns exactly the rows at positions `[(page-1)*pageSize,
page*pageSize)` of the `createdDate`-descending ordering (items
attached), together with the total row count and
`totalPages = ceil(total / pageSize)`. -/
theorem c5_pagination_window (s : Store) (p ps : Nat)
    (hp : 1 ≤ p) (hps : 1 ≤ ps) (hp32 : p < 4294967296)
    (hov : (p - 1) * ps < 4294967296) :
    load_orders (some p) (some ps) s
      = { orders := (((sortRows s.orders).drop ((p - 1) * ps)).take ps).map
            (rowToOrder s)
          total := s.orders.length
          page := p
          page_size := ps
          total_pages := (s.orders.length + ps - 1) / ps } := by
  have hoff : pageOffset p ps = (p - 1) * ps := by
    unfold pageOffset sub1u32 U32MOD
    have h1 : (p + (4294967296 - 1)) % 4294967296 = p - 1 := by omega
    rw [h1, Nat.mod_eq_of_lt hov]
  have hps0 : ps ≠ 0 := by omega
  simp [load_orders, load_orders_paginated_from_db, get_total_orders_count,
    totalPagesCalc, hoff, hps0]

/-- The witness instantiates the amended C5 at the spec's own example
scale: 125 stored orders, `pageSize = 50`, `page = 3`. -/
theorem c5_pagination_window_witness :
    load_orders (some 3) (some 50) store125
      = { orders := (((sortRows store125.orders).drop ((3 - 1) * 50)).take 50).map
            (rowToOrder store125)
          total := store125.orders.length
          page := 3
          page_size := 50
          total_pages := (store125.orders.length + 50 - 1) / 50 } :=
  c5_pagination_window store125 3 50 (by decide) (by decide) (by decide)
    (by decide)

set_option maxRecDepth 40000 in
/-- The spec's concrete pagination example, checked directly against the
model: 125 orders with `pageSize = 50` give 50 orders on page 1, 25 on
page 3, an empty page 4, and 3 total pages. -/
theorem pagination_125_example :
    (load_orders (some 1) (some 50) store125).orders.length = 50
    ∧ (load_orders (some 3) (some 50) store125).orders.length = 25
    ∧ (load_orders (some 4) (some 50) store125).orders.length = 0
    ∧ (load_orders (some 1) (some 50) store125).total_pages = 3 := by
  decide

/-- Claim C10: the paginated read has no defensive check against zero
parameters, and zero inputs produce arithmetic anomalies rather than a
clamped result: `page = 0` makes the `u32` offset computation
`(page - 1) * pageSize` underflow and wrap to `2^32 - pageSize` (a
nonsense offset far past any real table — in a debug build the
subtraction would panic instead), and `pageSize = 0` drives the
`total_pages` computation `(total / 0).ceil() as u32` to `+inf`, which
the saturating cast turns into `u32::MAX = 4294967295` instead of any
meaningful page count. -/
theorem c10_zero_inputs_anomalous :
    (∀ ps : Nat, 1 ≤ ps → ps < 4294967296 →
      pageOffset 0 ps = 4294967296 - ps)
    ∧ (∀ t : Nat, 1 ≤ t → totalPagesCalc t 0 = 4294967295) := by
  constructor
  · intro ps h1 h2
    unfold pageOffset sub1u32 U32MOD
    omega
  · intro t ht
    have ht0 : t ≠ 0 := by omega
    simp [totalPagesCalc, U32MOD, ht0]

/-- Witness for C10 at `pageSize = 4` and `total = 7`. -/
theorem c10_zero_inputs_anomalous_witness :
    pageOffset 0 4 = 4294967292 ∧ totalPagesCalc 7 0 = 4294967295 :=
  ⟨c10_zero_inputs_anomalous.1 4 (by decide) (by decide),
   c10_zero_inputs_anomalous.2 7 (by decide)⟩

/-- The canonical order of returned orders: `createdDate` descending
(byte order of the TEXT values). -/
def createdDescOrder (a b : Order) : Prop :=
  b.created_date.data ≤ a.created_date.data

/-- The canonical order of the items inside a returned order: `slNo`
ascending. -/
def slNoAscItem (a b : OrderItem) : Prop := a.sl_no ≤ b.sl_no

instance : DecidableRel slNoAscItem := fun a b =>
  inferInstanceAs (Decidable (a.sl_no ≤ b.sl_no))

/-- The item list attached to any decoded order is sorted by `slNo`
ascending: it is produced by the `ORDER BY sl_no` query. -/
theorem loadItemsFor_sorted (s : Store) (x : String) :
    List.Sorted slNoAscItem (loadItemsFor s x) := by
  unfold loadItemsFor
  exact List.Pairwise.map (fun r : ItemRow => r.item) (fun _ _ hh => hh)
    (List.sorted_insertionSort slNoAscRow
      (s.items.filter (fun r => r.order_no == x)))

/-- Claim C6: every read returns results in the canonical order — every
returned order carries its items sorted by `slNo` ascending (whatever
order they were inserted in), and every listing (paginated or not)
returns orders sorted by `createdDate` descending. -/
theorem c6_canonical_ordering (page page_size : Option Nat) (s : Store) :
    List.Sorted createdDescOrder (load_orders_paginated_from_db page page_size s)
    ∧ ∀ o ∈ load_orders_paginated_from_db page page_size s,
        List.Sorted slNoAscItem o.items := by
  constructor
  · have hs : List.Sorted createdDescRow (sortRows s.orders) :=
      List.sorted_insertionSort createdDescRow s.orders
    have key : ∀ sel : List OrderRow, List.Sublist sel (sortRows s.orders) →
        List.Sorted createdDescOrder (sel.map (rowToOrder s)) := fun sel hsub =>
      List.Pairwise.map (rowToOrder s) (fun _ _ hh => hh)
        (List.Pairwise.sublist hsub hs)
    rcases page with _ | p <;> rcases page_size with _ | ps
    · exact key _ (List.Sublist.refl _)
    · exact key _ (List.Sublist.refl _)
    · exact key _ (List.Sublist.refl _)
    · exact key _ ((List.take_sublist _ _).trans (List.drop_sublist _ _))
  · have key : ∀ l : List OrderRow, ∀ o ∈ l.map (rowToOrder s),
        List.Sorted slNoAscItem o.items := by
      intro l o ho
      obtain ⟨r, _, rfl⟩ := List.mem_map.mp ho
      exact loadItemsFor_sorted s r.order_no
    rcases page with _ | p <;> rcases page_size with _ | ps
    · exact key _
    · exact key _
    · exact key _
    · exact key _

/-- Witness for C6 on the concrete two-order store: the returned listing
is sorted by `createdDate` descending and the first returned order's
items are sorted by `slNo`. -/
theorem c6_canonical_ordering_witness :
    List.Sorted createdDescOrder
      (load_orders_paginated_from_db none none storeAB)
    ∧ List.Sorted slNoAscItem (rowToOrder storeAB rowA).items :=
  ⟨(c6_canonical_ordering none none storeAB).1,
   (c6_canonical_ordering none none storeAB).2 (rowToOrder storeAB rowA)
     (by decide)⟩

/-- An item with serial number 2 (sorts after `itemA`, which has 1). -/
def itemC : OrderItem :=
  { sl_no := 2, item_type := "hose", qty := 3, length := "7", dia := "3",
    shore := "50", remarks := "", rate := 2, amount := 6 }

/-- An order whose item list is NOT in `slNo`-ascending order. -/
def orderX : Order :=
  { order_no := "X", date := "2024-01-01", customer_name := "Acme",
    contact_person := "", phone := "", status := "pending",
    machine_name := "", items := [itemC, itemA], subtotal := 12, gst := 2,
    total := 14, remarks := "", delivery_note := "",
    delivery_note_date := "", buyer_order_no := "", buyer_order_date := "",
    created_date := "2024-01-01" }

/-- The empty store. -/
def emptyStore : Store := { orders := [], items := [] }

/-- Claim C7, counterexample: saving an Order and immediately reading it
back is claimed to yield field-for-field equality for EVERY Order value.
It does not: the read re-sorts items by `slNo` ascending, so an order
saved with items out of `slNo` order comes back with its item list
permuted — the read-back of `orderX` (items `[itemC, itemA]`, serials
`[2, 1]`) has items `[itemA, itemC]` and is not equal to `orderX`. -/
theorem c7_counterexample :
    load_orders_from_db (save_order_to_db orderX emptyStore)
        = [{ orderX with items := [itemA, itemC] }]
    ∧ load_orders_from_db (save_order_to_db orderX emptyStore)
        ≠ [orderX] := by
  decide

/-- Claim C7 (amended): for every order whose item list is already in
`slNo`-ascending order (and in general up to that re-sorting of items),
saving and immediately reading back via the unpaginated listing yields
the saved order field-for-field, nested items included. -/
theorem c7_round_trip_sorted (o : Order) (s : Store)
    (h : List.Sorted slNoAscItem o.items) :
    (load_orders_from_db (save_order_to_db o s)).filter
      (fun q => q.order_no == o.order_no) = [o] := by
  have hrows : (save_order_to_db o s).orders.filter
      (fun r => r.order_no == o.order_no) = [orderToRow o] := by
    simp [save_order_to_db, List.filter_append, List.filter_cons,
      filter_key_ne_then_eq (fun r : OrderRow => r.order_no) o.order_no,
      orderToRow]
  have hperm : List.Perm
      ((sortRows (save_order_to_db o s).orders).filter
        (fun r => r.order_no == o.order_no))
      ((save_order_to_db o s).orders.filter
        (fun r => r.order_no == o.order_no)) :=
    (List.perm_insertionSort createdDescRow _).filter _
  rw [hrows] at hperm
  have hfil : (sortRows (save_order_to_db o s).orders).filter
      (fun r => r.order_no == o.order_no) = [orderToRow o] :=
    hperm.eq_singleton
  have hitems : loadItemsFor (save_order_to_db o s) o.order_no = o.items := by
    unfold loadItemsFor
    rw [saved_items_filter o s]
    have hsor : List.Sorted slNoAscRow
        (o.items.map (fun it => ({ order_no := o.order_no, item := it } : ItemRow))) :=
      List.Pairwise.map _ (fun _ _ hh => hh) h
    rw [hsor.insertionSort_eq, List.map_map]
    exact List.map_id _
  show ((sortRows (save_order_to_db o s).orders).map
      (rowToOrder (save_order_to_db o s))).filter
      (fun q => q.order_no == o.order_no) = [o]
  rw [List.filter_map]
  have hcomp : ((fun q : Order => q.order_no == o.order_no)
      ∘ rowToOrder (save_order_to_db o s))
      = fun r : OrderRow => r.order_no == o.order_no := rfl
  rw [hcomp, hfil]
  have hback : rowToOrder (save_order_to_db o s) (orderToRow o) = o := by
    have heta : rowToOrder (save_order_to_db o s) (orderToRow o)
        = { o with items := loadItemsFor (save_order_to_db o s) o.order_no } :=
      rfl
    rw [heta, hitems]
  rw [List.map_cons, List.map_nil, hback]

/-- Witness for the amended C7: a concrete order with `slNo`-sorted
items round-trips exactly. -/
theorem c7_round_trip_sorted_witness :
    (load_orders_from_db
        (save_order_to_db { orderX with items := [itemA, itemC] } emptyStore)).filter
      (fun q => q.order_no == ({ orderX with items := [itemA, itemC] } : Order).order_no)
      = [{ orderX with items := [itemA, itemC] }] :=
  c7_round_trip_sorted { orderX with items := [itemA, itemC] } emptyStore
    (by decide)

/-!
### Idempotence of `init_database`
-/

/-- Re-adding an existing column is the swallowed-failure no-op. -/
theorem addColumn_eq_of_mem {cols : List String} {c : String} (h : c ∈ cols) :
    addColumn cols c = cols := if_pos h

/-- The added column is present afterwards. -/
theorem mem_addColumn_self (cols : List String) (c : String) :
    c ∈ addColumn cols c := by
  unfold addColumn
  by_cases h : c ∈ cols
  · simp [h]
  · simp [h]

/-- Adding a column never removes another. -/
theorem mem_addColumn_of_mem {cols : List String} {a : String} (c : String)
    (h : a ∈ cols) : a ∈ addColumn cols c := by
  unfold addColumn
  by_cases hc : c ∈ cols <;> simp [hc, h]

/-- Columns survive a whole batch of additive alterations. -/
theorem mem_foldl_addColumn_of_mem {a : String} :
    ∀ (L cols : List String), a ∈ cols → a ∈ L.foldl addColumn cols
  | [], _, h => h
  | c :: L, _, h =>
      mem_foldl_addColumn_of_mem L _ (mem_addColumn_of_mem c h)

/-- Every column of the batch is present after the batch ran. -/
theorem mem_foldl_addColumn_of_mem_list {a : String} :
    ∀ (L cols : List String), a ∈ L → a ∈ L.foldl addColumn cols
  | [], _, h => absurd h (List.not_mem_nil a)
  | c :: L, cols, h => by
      rcases List.mem_cons.mp h with rfl | h'
      · exact mem_foldl_addColumn_of_mem L _ (mem_addColumn_self cols a)
      · exact mem_foldl_addColumn_of_mem_list L _ h'

/-- A batch of additive alterations whose columns are all present already
is a no-op (each single failure being swallowed). -/
theorem foldl_addColumn_of_all_mem :
    ∀ (L cols : List String), (∀ c ∈ L, c ∈ cols) →
      L.foldl addColumn cols = cols
  | [], _, _ => rfl
  | c :: L, cols, h => by
      rw [List.foldl_cons, addColumn_eq_of_mem (h c (List.mem_cons_self c L))]
      exact foldl_addColumn_of_all_mem L cols
        (fun d hd => h d (List.mem_cons_of_mem c hd))

/-- Running the additive-column batch twice equals running it once. -/
theorem foldl_addColumn_idem (L cols : List String) :
    L.foldl addColumn (L.foldl addColumn cols) = L.foldl addColumn cols :=
  foldl_addColumn_of_all_mem L _
    (fun _ hc => mem_foldl_addColumn_of_mem_list L cols hc)

/-- On any state with no left-over shadow table, a second run of
`init_database` changes nothing. -/
theorem init_database_init_database (s : DbSchema) (h : s.itemsNew = none) :
    init_database (init_database s) = init_database s := by
  obtain ⟨oe, cols, items, inew, i1, i2⟩ := s
  simp only at h
  subst h
  cases oe <;> rcases items with _ | ⟨hm, rows⟩ <;> try cases hm
  all_goals
    simp [init_database, migrationRun, migStepCreate, migStepCopy,
      migStepDrop, migStepRename, foldl_addColumn_idem]

/-- Iterated form of the previous lemma. -/
theorem init_database_iterate (s : DbSchema) (h : s.itemsNew = none) :
    ∀ n : Nat, 1 ≤ n → init_database^[n] s = init_database s := by
  intro n
  induction n with
  | zero => intro hn; exact absurd hn (by omega)
  | succ m ih =>
    intro _
    cases m with
    | zero => rfl
    | succ k =>
      rw [Function.iterate_succ_apply', ih (by omega)]
      exact init_database_init_database s h

/-- A database state carrying BOTH a legacy `order_items` (with the
`machine` column) and a left-over `order_items_new` shadow table that
itself still has a `machine` column (as a crashed hand-migration could
leave behind).  `CREATE TABLE IF NOT EXISTS order_items_new` then skips
creation and the rename installs a table that still has the `machine`
column. -/
def strayShadowSchema : DbSchema :=
  { ordersExists := true, ordersCols := currentOrdersCols,
    items := some { hasMachine := true, rows := [legacyMigRow] },
    itemsNew := some { hasMachine := true, rows := [] },
    idxStatus := true, idxDate := true }

/-- Claim C8, counterexample: schema initialisation is claimed
idempotent for EVERY database state.  On a state with a left-over
`order_items_new` shadow table that still carries the `machine` column,
the first run renames that table into place (so `order_items` still has
`machine`) and the second run migrates again — the schema after two runs
differs from the schema after one. -/
theorem c8_counterexample :
    init_database (init_database strayShadowSchema)
      ≠ init_database strayShadowSchema := by
  decide

/-- Claim C8 (amended): for every database state with no left-over
`order_items_new` shadow table — i.e. every store in the spec's
two-table layout — running `init_database` N ≥ 1 times produces exactly
the state of running it once; failures from re-adding an already-present
column are swallowed (the no-op `addColumn`); and the item-table
migration leaves `order_items` untouched when the legacy `machine`
column is absent. -/
theorem c8_idempotent_init (s : DbSchema) (h : s.itemsNew = none) :
    (∀ n : Nat, 1 ≤ n → init_database^[n] s = init_database s)
    ∧ (∀ (cols : List String) (c : String), c ∈ cols →
        addColumn cols c = cols)
    ∧ (∀ t : ItemsTable, s.items = some t → t.hasMachine = false →
        (init_database s).items = some t) := by
  refine ⟨init_database_iterate s h, fun _ _ hc => addColumn_eq_of_mem hc, ?_⟩
  intro t ht hm
  cases hoe : s.ordersExists <;>
    simp [init_database, ht, hm, hoe]

/-- Witness: two runs on the concrete legacy store equal one run. -/
theorem c8_idempotent_init_witness :
    init_database^[2] legacySchema = init_database legacySchema :=
  (c8_idempotent_init legacySchema rfl).1 2 (by decide)

/-- Claim C9: for every store (two-table layout, so no stray shadow
table) whose `order_items` carries the legacy `machine` column and holds
M rows, `init_database` leaves `order_items` without the `machine`
column, with exactly the M copied rows, each preserving all eleven
remaining columns exactly. -/
theorem c9_migration_preserves_rows (s : DbSchema) (t : ItemsTable)
    (hnew : s.itemsNew = none) (hit : s.items = some t)
    (hm : t.hasMachine = true) :
    (init_database s).items
        = some { hasMachine := false, rows := t.rows.map clearMachine }
    ∧ (t.rows.map clearMachine).length = t.rows.length
    ∧ ∀ r ∈ t.rows,
        (clearMachine r).id = r.id
        ∧ (clearMachine r).order_no = r.order_no
        ∧ (clearMachine r).sl_no = r.sl_no
        ∧ (clearMachine r).item_type = r.item_type
        ∧ (clearMachine r).qty = r.qty
        ∧ (clearMachine r).length = r.length
        ∧ (clearMachine r).dia = r.dia
        ∧ (clearMachine r).shore = r.shore
        ∧ (clearMachine r).remarks = r.remarks
        ∧ (clearMachine r).rate = r.rate
        ∧ (clearMachine r).amount = r.amount := by
  refine ⟨?_, List.length_map _ _,
    fun r _ => ⟨rfl, rfl, rfl, rfl, rfl, rfl, rfl, rfl, rfl, rfl, rfl⟩⟩
  cases hoe : s.ordersExists <;>
    simp [init_database, migrationRun, migStepCreate, migStepCopy,
      migStepDrop, migStepRename, hit, hm, hnew, hoe]

/-- Witness: the one-row legacy store migrates to a machine-free table
with that row preserved. -/
theorem c9_migration_preserves_rows_witness :
    (init_database legacySchema).items
        = some { hasMachine := false, rows := [legacyMigRow].map clearMachine }
    ∧ ([legacyMigRow].map clearMachine).length = [legacyMigRow].length
    ∧ ∀ r ∈ [legacyMigRow],
        (clearMachine r).id = r.id
        ∧ (clearMachine r).order_no = r.order_no
        ∧ (clearMachine r).sl_no = r.sl_no
        ∧ (clearMachine r).item_type = r.item_type
        ∧ (clearMachine r).qty = r.qty
        ∧ (clearMachine r).length = r.length
        ∧ (clearMachine r).dia = r.dia
        ∧ (clearMachine r).shore = r.shore
        ∧ (clearMachine r).remarks = r.remarks
        ∧ (clearMachine r).rate = r.rate
        ∧ (clearMachine r).amount = r.amount :=
  c9_migration_preserves_rows legacySchema
    { hasMachine := true, rows := [legacyMigRow] } rfl rfl rfl

end Aakso
